import Mathlib

/-!
Verification of the authentication/session core of a FastAPI desktop-app backend.

The embedding follows the source files:
  - app/core/security.py : password hashing (pwdlib with Argon2 primary, Bcrypt legacy)
  - app/crud.py          : user store operations (create_user, get_user_by_email,
                           authenticate, get_or_create_default_user)
  - app/api/deps.py      : the request-time authentication resolver (get_current_user)

The database session is embedded as an explicit state value (a list of user rows plus
a fresh-id counter).  Calls into the hashing layer are recorded in a trace so that
properties of the form "no password check occurs" and "a dummy verification is
performed" are statable.
-/

/-- Hash algorithms supported by the credential store: Argon2 is the primary hasher,
Bcrypt is recognised for legacy hashes (app/core/security.py, PasswordHash
construction). -/
inductive HashAlgo where
  | argon2
  | bcrypt
deriving DecidableEq, Repr

/-- Modelled from the spec: the pwdlib hashing library is not part of src/.  Per the
spec, a hash is a self-describing opaque string embedding its algorithm; verification
checks the password against it.  We model a hash as its algorithm tag together with an
idealized preimage (collision-free one-way function model): verification succeeds
exactly when the submitted password equals the preimage. -/
structure MHash where
  algo : HashAlgo
  preimage : String
deriving DecidableEq, Repr

/-- get_password_hash (app/core/security.py): hash a password using the primary
hasher, Argon2. -/
def get_password_hash (password : String) : MHash :=
  ⟨HashAlgo.argon2, password⟩

/-- verify_password (app/core/security.py), delegating to pwdlib verify_and_update
(Modelled from the spec: pwdlib is not under src/): returns (is_valid, updated_hash)
where updated_hash is set when the hash matched under a legacy algorithm and a fresh
primary-algorithm hash is produced for the caller to persist. -/
def verify_password (plain_password : String) (hashed_password : MHash) :
    Bool × Option MHash :=
  if hashed_password.preimage = plain_password then
    match hashed_password.algo with
    | HashAlgo.argon2 => (true, none)
    | HashAlgo.bcrypt => (true, some (get_password_hash plain_password))
  else
    (false, none)

/-- User row (Modelled from the spec: app/models.py is not under src/; fields follow
spec section 3). -/
structure User where
  id : Nat
  email : String
  hashed_password : MHash
  full_name : String
  is_active : Bool
  is_superuser : Bool
deriving DecidableEq, Repr

/-- UserCreate payload (Modelled from the spec: app/models.py is not under src/). -/
structure UserCreate where
  email : String
  password : String
  full_name : String
  is_active : Bool
  is_superuser : Bool
deriving DecidableEq, Repr

/-- The database session state: the committed user rows, and the id the next created
row receives. -/
structure DB where
  users : List User
  nextId : Nat
deriving DecidableEq, Repr

/-- A call into the hashing layer of app/core/security.py, recorded in traces. -/
inductive CryptoCall where
  | verify (password : String) (hashed : MHash)
  | hash (password : String)
deriving DecidableEq, Repr

/-- The password-verification calls of a trace. -/
def verifyCalls (tr : List CryptoCall) : List CryptoCall :=
  tr.filter fun c =>
    match c with
    | CryptoCall.verify _ _ => true
    | CryptoCall.hash _ => false

/-- get_user_by_email (app/crud.py): select the first user whose email matches. -/
def get_user_by_email (db : DB) (email : String) : Option User :=
  db.users.find? fun u => u.email == email

/-- get_user_by_id (app/crud.py) and session.get(User, id) (app/api/deps.py): look a
user up by primary key. -/
def get_user_by_id (db : DB) (user_id : Nat) : Option User :=
  db.users.find? fun u => u.id == user_id

/-- create_user (app/crud.py): hash the password with the primary hasher, insert the
row, commit.  Returns the created row, the new session state, and the hashing-layer
calls made. -/
def create_user (db : DB) (user_create : UserCreate) : User × DB × List CryptoCall :=
  let u : User :=
    { id := db.nextId
      email := user_create.email
      hashed_password := get_password_hash user_create.password
      full_name := user_create.full_name
      is_active := user_create.is_active
      is_superuser := user_create.is_superuser }
  (u, ⟨db.users ++ [u], db.nextId + 1⟩, [CryptoCall.hash user_create.password])

/-- DUMMY_HASH (app/crud.py): a fixed Argon2 hash of a random password, used to keep
the not-found path of authenticate doing the same verification work as the found
path.  The preimage is a value no caller submits. -/
def DUMMY_HASH : MHash :=
  ⟨HashAlgo.argon2, "argon2-hash-of-a-random-password"⟩

/-- authenticate (app/crud.py): look the user up by email; when absent, verify the
password against DUMMY_HASH and return none; when present, verify against the stored
hash, returning none on failure, and on success persist an upgraded hash when the
verification produced one before returning the user. -/
def authenticate (db : DB) (email password : String) :
    Option User × DB × List CryptoCall :=
  match get_user_by_email db email with
  | none => (none, db, [CryptoCall.verify password DUMMY_HASH])
  | some db_user =>
    let vr := verify_password password db_user.hashed_password
    if !vr.1 then
      (none, db, [CryptoCall.verify password db_user.hashed_password])
    else
      match vr.2 with
      | none =>
        (some db_user, db, [CryptoCall.verify password db_user.hashed_password])
      | some updated_password_hash =>
        let u : User := { db_user with hashed_password := updated_password_hash }
        (some u,
         ⟨db.users.map fun v => if v.id == db_user.id then u else v, db.nextId⟩,
         [CryptoCall.verify password db_user.hashed_password])

/-- get_or_create_default_user (app/crud.py): look the default user up by email and
return it when found; otherwise create it with the fixed placeholder password,
is_active true and is_superuser true. -/
def get_or_create_default_user (db : DB) (email full_name : String) :
    User × DB × List CryptoCall :=
  match get_user_by_email db email with
  | some user => (user, db, [])
  | none =>
    create_user db
      { email := email
        password := "not-used-for-local-user"
        full_name := full_name
        is_active := true
        is_superuser := true }

/-- The settings fields the resolver reads (app/core/config.py). -/
structure Settings where
  AUTH_REQUIRED : Bool
  SECRET_KEY : String
  DEFAULT_USER_EMAIL : String
  DEFAULT_USER_NAME : String
deriving DecidableEq, Repr

/-- A bearer token as the decode step sees it (Modelled from the spec: the PyJWT
library and app/models.py TokenPayload are not under src/).  signedWith is the key
the signature verifies against; exp the embedded expiry instant; sub the subject, or
none when the payload does not parse into the TokenPayload shape. -/
structure RawToken where
  sub : Option Nat
  exp : Nat
  signedWith : String
deriving DecidableEq, Repr

/-- The three token-validation failures (bad signature, expiry, payload shape),
distinguished here so the resolver provably merges them. -/
inductive DecodeError where
  | invalidSignature
  | expiredSignature
  | validationError
deriving DecidableEq, Repr

/-- jwt.decode plus TokenPayload parsing as performed in get_current_user (Modelled
from the spec: PyJWT and TokenPayload are not under src/): fail if the signature does
not verify against the secret, fail if the token is expired at the current instant,
fail if the payload does not parse; otherwise return the subject. -/
def jwt_decode (secret : String) (now : Nat) (t : RawToken) : Except DecodeError Nat :=
  if t.signedWith ≠ secret then
    Except.error DecodeError.invalidSignature
  else if t.exp ≤ now then
    Except.error DecodeError.expiredSignature
  else
    match t.sub with
    | none => Except.error DecodeError.validationError
    | some s => Except.ok s

/-- The HTTPException raised at the request boundary (status code, detail, and the
WWW-Authenticate header when set). -/
structure HTTPException where
  status_code : Nat
  detail : String
  www_authenticate : Option String
deriving DecidableEq, Repr

/-- get_current_user (app/api/deps.py): when AUTH_REQUIRED is false, resolve the
default local user; otherwise require a token (401 with WWW-Authenticate Bearer when
absent), decode it (403 on any decode failure), look the user up by the subject (404
when absent, 400 when inactive), and return the user.  The trace records the
hashing-layer calls made. -/
def get_current_user (s : Settings) (now : Nat) (db : DB) (token : Option RawToken) :
    Except HTTPException (User × DB) × List CryptoCall :=
  if !s.AUTH_REQUIRED then
    let r := get_or_create_default_user db s.DEFAULT_USER_EMAIL s.DEFAULT_USER_NAME
    (Except.ok (r.1, r.2.1), r.2.2)
  else
    match token with
    | none => (Except.error ⟨401, "Not authenticated", some "Bearer"⟩, [])
    | some t =>
      match jwt_decode s.SECRET_KEY now t with
      | Except.error _ => (Except.error ⟨403, "Could not validate credentials", none⟩, [])
      | Except.ok sub =>
        match get_user_by_id db sub with
        | none => (Except.error ⟨404, "User not found", none⟩, [])
        | some user =>
          if !user.is_active then (Except.error ⟨400, "Inactive user", none⟩, [])
          else (Except.ok (user, db), [])

/-- A database error surfaced by a commit. -/
inductive DBError where
  | integrityError
deriving DecidableEq, Repr

/-- Modelled from the spec: app/models.py is not under src/; per spec section 3 the
email column has a unique constraint, so committing an insert whose email already
exists in the committed state fails with a duplicate-key IntegrityError instead of
adding a second row.  This wraps create_user with that constraint. -/
def create_user_checked (db : DB) (user_create : UserCreate) :
    Except DBError (User × DB × List CryptoCall) :=
  if db.users.any (fun u => u.email == user_create.email) then
    Except.error DBError.integrityError
  else
    Except.ok (create_user db user_create)

/-- get_or_create_default_user as executed by a request whose lookup read the state
dbAtLookup but whose create commits against dbAtCreate, modelling a second request
committing between the two steps.  The source wraps create_user in no except or
re-fetch, so a duplicate-key error from the commit propagates to the caller. -/
def get_or_create_default_user_raced (dbAtLookup dbAtCreate : DB)
    (email full_name : String) : Except DBError (User × DB × List CryptoCall) :=
  match get_user_by_email dbAtLookup email with
  | some user => Except.ok (user, dbAtCreate, [])
  | none =>
    create_user_checked dbAtCreate
      { email := email
        password := "not-used-for-local-user"
        full_name := full_name
        is_active := true
        is_superuser := true }

/-- If the first matching element of l is u, then after replacing the element with id
u.id by a row u2 carrying the same id and email, the first match is u2 (ids are
unique, as primary keys are). -/
theorem find?_email_after_update {l : List User} {email : String} {u u2 : User}
    (hids : (l.map User.id).Nodup)
    (hfind : l.find? (fun v => v.email == email) = some u)
    (hid : u2.id = u.id) (hemail : u2.email = u.email) :
    (l.map fun v => if v.id == u.id then u2 else v).find?
        (fun v => v.email == email) = some u2 := by
  induction l with
  | nil => simp at hfind
  | cons a l ih =>
    simp only [List.map_cons, List.nodup_cons] at hids
    by_cases ha : (a.email == email) = true
    · rw [List.find?_cons_of_pos (p := fun v : User => v.email == email) l ha] at hfind
      have hau : a = u := Option.some.inj hfind
      subst hau
      simp [hemail, ha]
    · rw [List.find?_cons_of_neg (p := fun v : User => v.email == email) l ha] at hfind
      have hu_mem : u ∈ l := List.mem_of_find?_eq_some hfind
      have hne : a.id ≠ u.id := by
        intro hcontra
        exact hids.1 (hcontra ▸ List.mem_map_of_mem User.id hu_mem)
      simp only [List.map_cons]
      rw [if_neg (by simpa using hne)]
      rw [List.find?_cons_of_neg (p := fun v : User => v.email == email) _ ha]
      exact ih hids.2 hfind

/-- If no element of l matches the email and u carries that email, the first match in
l ++ [u] is u. -/
theorem find?_email_append {l : List User} {email : String} {u : User}
    (hnone : l.find? (fun v => v.email == email) = none)
    (hu : u.email = email) :
    (l ++ [u]).find? (fun v => v.email == email) = some u := by
  rw [List.find?_append, hnone]
  simp [hu]

/-- C3: with auth required and a token present, every token-validation failure (bad
signature, expiry, or payload that does not parse) produces the single exception 403
"Could not validate credentials", independent of which check failed. -/
theorem C3_decode_failures_merge (s : Settings) (h : s.AUTH_REQUIRED = true)
    (now : Nat) (db : DB) (t : RawToken) (e : DecodeError)
    (hdec : jwt_decode s.SECRET_KEY now t = Except.error e) :
    get_current_user s now db (some t)
      = (Except.error ⟨403, "Could not validate credentials", none⟩, []) := by
  simp [get_current_user, h, hdec]

/-- Witness for C3 at a concrete token whose signature key does not match. -/
theorem C3_witness :
    get_current_user ⟨true, "k", "local@desktop.app", "Local User"⟩ 0 ⟨[], 0⟩
        (some ⟨some 1, 10, "wrong"⟩)
      = (Except.error ⟨403, "Could not validate credentials", none⟩, []) :=
  C3_decode_failures_merge ⟨true, "k", "local@desktop.app", "Local User"⟩ rfl 0 ⟨[], 0⟩
    ⟨some 1, 10, "wrong"⟩ DecodeError.invalidSignature rfl

/-- C4: with auth required and no bearer token, the resolver fails with 401 "Not
authenticated" carrying a WWW-Authenticate Bearer header, and the outcome does not
depend on the database state (no user lookup occurs). -/
theorem C4_no_token_unauthenticated (s : Settings) (h : s.AUTH_REQUIRED = true)
    (now : Nat) (db db2 : DB) :
    get_current_user s now db none
      = (Except.error ⟨401, "Not authenticated", some "Bearer"⟩, []) ∧
    get_current_user s now db none = get_current_user s now db2 none := by
  constructor <;> simp [get_current_user, h]

/-- Witness for C4 at concrete settings and two distinct database states. -/
theorem C4_witness :
    get_current_user ⟨true, "k", "local@desktop.app", "Local User"⟩ 0 ⟨[], 0⟩ none
      = (Except.error ⟨401, "Not authenticated", some "Bearer"⟩, []) ∧
    get_current_user ⟨true, "k", "local@desktop.app", "Local User"⟩ 0 ⟨[], 0⟩ none
      = get_current_user ⟨true, "k", "local@desktop.app", "Local User"⟩ 0 ⟨[], 5⟩ none :=
  C4_no_token_unauthenticated ⟨true, "k", "local@desktop.app", "Local User"⟩ rfl 0
    ⟨[], 0⟩ ⟨[], 5⟩

/-- C10: with auth not required, the resolver ignores the token and the clock: any two
token values (absent, valid, expired or garbage) give identical results, and the
result is always a success, never a token-related failure. -/
theorem C10_token_independent (s : Settings) (h : s.AUTH_REQUIRED = false)
    (now1 now2 : Nat) (db : DB) (t1 t2 : Option RawToken) :
    get_current_user s now1 db t1 = get_current_user s now2 db t2 ∧
    ∃ u db2 tr, get_current_user s now1 db t1 = (Except.ok (u, db2), tr) := by
  constructor
  · simp [get_current_user, h]
  · refine ⟨(get_or_create_default_user db s.DEFAULT_USER_EMAIL s.DEFAULT_USER_NAME).1,
      (get_or_create_default_user db s.DEFAULT_USER_EMAIL s.DEFAULT_USER_NAME).2.1,
      (get_or_create_default_user db s.DEFAULT_USER_EMAIL s.DEFAULT_USER_NAME).2.2, ?_⟩
    simp [get_current_user, h]

/-- Witness for C10: a garbage token and an absent token give the same successful
resolution. -/
theorem C10_witness :
    get_current_user ⟨false, "k", "local@desktop.app", "Local User"⟩ 0 ⟨[], 0⟩
        (some ⟨none, 0, "garbage"⟩)
      = get_current_user ⟨false, "k", "local@desktop.app", "Local User"⟩ 99 ⟨[], 0⟩ none ∧
    ∃ u db2 tr,
      get_current_user ⟨false, "k", "local@desktop.app", "Local User"⟩ 0 ⟨[], 0⟩
          (some ⟨none, 0, "garbage"⟩)
        = (Except.ok (u, db2), tr) :=
  C10_token_independent ⟨false, "k", "local@desktop.app", "Local User"⟩ rfl 0 99 ⟨[], 0⟩
    (some ⟨none, 0, "garbage"⟩) none

/-- C5: verifying a password against its own primary-algorithm hash succeeds, and
verifying it against a legacy bcrypt hash of the same password succeeds and yields an
upgraded Argon2 hash that itself verifies the password. -/
theorem C5_verify_roundtrip_and_upgrade (password : String) :
    (verify_password password (get_password_hash password)).1 = true ∧
    (verify_password password ⟨HashAlgo.bcrypt, password⟩).1 = true ∧
    ∃ up, (verify_password password ⟨HashAlgo.bcrypt, password⟩).2 = some up ∧
      up.algo = HashAlgo.argon2 ∧ (verify_password password up).1 = true := by
  refine ⟨?_, ?_, get_password_hash password, ?_, rfl, ?_⟩ <;>
    simp [verify_password, get_password_hash]

/-- C1: with auth disabled, identity resolution is idempotent: when a user with the
configured default email exists, get_or_create_default_user returns it with the state
unchanged and performs no hashing-layer call at all; when none exists, it creates
exactly one user with is_active and is_superuser true, performs no password
verification, and a subsequent resolution returns that same user with the state
unchanged. -/
theorem C1_default_user_idempotent (db : DB) (email name : String) :
    (∀ u, get_user_by_email db email = some u →
        get_or_create_default_user db email name = (u, db, [])) ∧
    (get_user_by_email db email = none →
        (get_or_create_default_user db email name).1.email = email ∧
        (get_or_create_default_user db email name).1.is_active = true ∧
        (get_or_create_default_user db email name).1.is_superuser = true ∧
        (get_or_create_default_user db email name).2.1.users
          = db.users ++ [(get_or_create_default_user db email name).1] ∧
        verifyCalls (get_or_create_default_user db email name).2.2 = [] ∧
        get_or_create_default_user (get_or_create_default_user db email name).2.1
            email name
          = ((get_or_create_default_user db email name).1,
             (get_or_create_default_user db email name).2.1, [])) := by
  constructor
  · intro u hu
    simp [get_or_create_default_user, hu]
  · intro hnone
    have hcreate : get_or_create_default_user db email name
        = create_user db ⟨email, "not-used-for-local-user", name, true, true⟩ := by
      simp [get_or_create_default_user, hnone]
    rw [hcreate]
    refine ⟨rfl, rfl, rfl, rfl, rfl, ?_⟩
    have hfind2 :
        get_user_by_email
            (create_user db ⟨email, "not-used-for-local-user", name, true, true⟩).2.1
            email
          = some (create_user db
              ⟨email, "not-used-for-local-user", name, true, true⟩).1 := by
      simp only [create_user, get_user_by_email]
      exact find?_email_append (by simpa [get_user_by_email] using hnone) rfl
    simp [get_or_create_default_user, hfind2]

/-- Witness for C1: resolving against the empty state creates the default user, and
the stated properties hold there. -/
theorem C1_witness :
    (get_or_create_default_user ⟨[], 0⟩ "local@desktop.app" "Local User").1.email
      = "local@desktop.app" ∧
    (get_or_create_default_user ⟨[], 0⟩ "local@desktop.app" "Local User").1.is_active
      = true ∧
    (get_or_create_default_user ⟨[], 0⟩ "local@desktop.app" "Local User").1.is_superuser
      = true ∧
    (get_or_create_default_user ⟨[], 0⟩ "local@desktop.app" "Local User").2.1.users
      = (DB.mk [] 0).users
          ++ [(get_or_create_default_user ⟨[], 0⟩ "local@desktop.app" "Local User").1] ∧
    verifyCalls (get_or_create_default_user ⟨[], 0⟩ "local@desktop.app" "Local User").2.2
      = [] ∧
    get_or_create_default_user
        (get_or_create_default_user ⟨[], 0⟩ "local@desktop.app" "Local User").2.1
        "local@desktop.app" "Local User"
      = ((get_or_create_default_user ⟨[], 0⟩ "local@desktop.app" "Local User").1,
         (get_or_create_default_user ⟨[], 0⟩ "local@desktop.app" "Local User").2.1, []) :=
  (C1_default_user_idempotent ⟨[], 0⟩ "local@desktop.app" "Local User").2 rfl

/-- C2: with auth required and a token that validates to subject sub, the resolver
returns 404 "User not found" when no user has that id, 400 "Inactive user" when the
user exists but is inactive, and exactly that user otherwise. -/
theorem C2_subject_lookup (s : Settings) (h : s.AUTH_REQUIRED = true)
    (now : Nat) (db : DB) (t : RawToken) (sub : Nat)
    (hdec : jwt_decode s.SECRET_KEY now t = Except.ok sub) :
    (get_user_by_id db sub = none →
        get_current_user s now db (some t)
          = (Except.error ⟨404, "User not found", none⟩, [])) ∧
    (∀ u, get_user_by_id db sub = some u → u.is_active = false →
        get_current_user s now db (some t)
          = (Except.error ⟨400, "Inactive user", none⟩, [])) ∧
    (∀ u, get_user_by_id db sub = some u → u.is_active = true →
        get_current_user s now db (some t) = (Except.ok (u, db), [])) :=
  ⟨fun hu => by simp [get_current_user, h, hdec, hu],
   fun u hu hact => by simp [get_current_user, h, hdec, hu, hact],
   fun u hu hact => by simp [get_current_user, h, hdec, hu, hact]⟩

/-- Witness for C2: a valid token for an existing active user resolves to that user. -/
theorem C2_witness :
    get_current_user ⟨true, "k", "local@desktop.app", "Local User"⟩ 0
        ⟨[⟨1, "a@x.com", ⟨HashAlgo.argon2, "pw"⟩, "A", true, false⟩], 2⟩
        (some ⟨some 1, 5, "k"⟩)
      = (Except.ok (⟨1, "a@x.com", ⟨HashAlgo.argon2, "pw"⟩, "A", true, false⟩,
          ⟨[⟨1, "a@x.com", ⟨HashAlgo.argon2, "pw"⟩, "A", true, false⟩], 2⟩), []) :=
  (C2_subject_lookup ⟨true, "k", "local@desktop.app", "Local User"⟩ rfl 0
      ⟨[⟨1, "a@x.com", ⟨HashAlgo.argon2, "pw"⟩, "A", true, false⟩], 2⟩
      ⟨some 1, 5, "k"⟩ 1 rfl).2.2
    ⟨1, "a@x.com", ⟨HashAlgo.argon2, "pw"⟩, "A", true, false⟩ rfl rfl

/-- C6: for a stored user, authenticate returns none when verification fails, and when
verification succeeds producing an upgraded hash it returns the user carrying that
hash and persists it: looking the email up in the resulting state yields the user with
the upgraded hash. -/
theorem C6_authenticate_persists_upgrade (db : DB) (email password : String) (u : User)
    (hids : (db.users.map User.id).Nodup)
    (hfind : get_user_by_email db email = some u) :
    ((verify_password password u.hashed_password).1 = false →
        authenticate db email password
          = (none, db, [CryptoCall.verify password u.hashed_password])) ∧
    (∀ up, verify_password password u.hashed_password = (true, some up) →
        ∃ u2 db2,
          authenticate db email password
            = (some u2, db2, [CryptoCall.verify password u.hashed_password]) ∧
          u2.id = u.id ∧ u2.hashed_password = up ∧
          get_user_by_email db2 email = some u2) := by
  constructor
  · intro hv
    simp [authenticate, hfind, hv]
  · intro up hv
    refine ⟨{ u with hashed_password := up },
      ⟨db.users.map fun v => if v.id == u.id then { u with hashed_password := up }
          else v, db.nextId⟩, ?_, rfl, rfl, ?_⟩
    · simp [authenticate, hfind, hv]
    · exact find?_email_after_update hids hfind rfl rfl

/-- Witness for C6: a user stored with a legacy bcrypt hash authenticates with the
right password, and the stored hash afterwards is the upgraded Argon2 one. -/
theorem C6_witness :
    ∃ u2 db2,
      authenticate ⟨[⟨1, "a@x.com", ⟨HashAlgo.bcrypt, "pw1"⟩, "A", true, false⟩], 2⟩
          "a@x.com" "pw1"
        = (some u2, db2, [CryptoCall.verify "pw1" ⟨HashAlgo.bcrypt, "pw1"⟩]) ∧
      u2.id = 1 ∧ u2.hashed_password = ⟨HashAlgo.argon2, "pw1"⟩ ∧
      get_user_by_email db2 "a@x.com" = some u2 :=
  (C6_authenticate_persists_upgrade
      ⟨[⟨1, "a@x.com", ⟨HashAlgo.bcrypt, "pw1"⟩, "A", true, false⟩], 2⟩
      "a@x.com" "pw1" ⟨1, "a@x.com", ⟨HashAlgo.bcrypt, "pw1"⟩, "A", true, false⟩
      (by simp) rfl).2 ⟨HashAlgo.argon2, "pw1"⟩ rfl

/-- C7: when no user carries the email, authenticate returns none after exactly one
password-verification call, made against the fixed DUMMY_HASH whose algorithm is the
primary one (Argon2); the number of verification calls equals the number made on the
user-found wrong-password path, so both outcomes do the same verification work. -/
theorem C7_dummy_hash_verification (db : DB) (email password : String)
    (hnone : get_user_by_email db email = none) :
    (authenticate db email password).1 = none ∧
    (authenticate db email password).2.2 = [CryptoCall.verify password DUMMY_HASH] ∧
    DUMMY_HASH.algo = HashAlgo.argon2 ∧
    (∀ db2 u, get_user_by_email db2 email = some u →
        (verify_password password u.hashed_password).1 = false →
        (authenticate db2 email password).2.2.length
          = (authenticate db email password).2.2.length) := by
  refine ⟨by simp [authenticate, hnone], by simp [authenticate, hnone], rfl, ?_⟩
  intro db2 u hu hv
  simp [authenticate, hnone, hu, hv]

/-- Witness for C7 on the empty state. -/
theorem C7_witness :
    (authenticate ⟨[], 0⟩ "nouser@x.com" "anything").1 = none ∧
    (authenticate ⟨[], 0⟩ "nouser@x.com" "anything").2.2
      = [CryptoCall.verify "anything" DUMMY_HASH] ∧
    DUMMY_HASH.algo = HashAlgo.argon2 ∧
    (∀ db2 u, get_user_by_email db2 "nouser@x.com" = some u →
        (verify_password "anything" u.hashed_password).1 = false →
        (authenticate db2 "nouser@x.com" "anything").2.2.length
          = (authenticate ⟨[], 0⟩ "nouser@x.com" "anything").2.2.length) :=
  C7_dummy_hash_verification ⟨[], 0⟩ "nouser@x.com" "anything" rfl

/-- C8 (amended): when the lookup step of get_or_create_default_user sees no default
user but a concurrent request has committed one before the create step commits, the
duplicate-key IntegrityError from the commit propagates to the caller; the source
contains no catch or re-fetch around create_user. -/
theorem C8_race_surfaces_integrity_error (dbL dbC : DB) (email name : String)
    (hL : get_user_by_email dbL email = none)
    (hC : dbC.users.any (fun u => u.email == email) = true) :
    get_or_create_default_user_raced dbL dbC email name
      = Except.error DBError.integrityError := by
  simp [get_or_create_default_user_raced, hL, create_user_checked, hC]

/-- Counterexample to C8 as stated: two first requests race; the second create step
commits after the first already committed the default user, and the result is the
IntegrityError surfacing, not the already-committed row. -/
theorem C8_counterexample :
    get_or_create_default_user_raced ⟨[], 0⟩
        (get_or_create_default_user ⟨[], 0⟩ "local@desktop.app" "Local User").2.1
        "local@desktop.app" "Local User"
      = Except.error DBError.integrityError := rfl

/-- Witness for the amended C8 at a different concrete interleaving. -/
theorem C8_witness :
    get_or_create_default_user_raced ⟨[], 0⟩
        ⟨[⟨0, "a@x.com", ⟨HashAlgo.argon2, "q"⟩, "A", true, true⟩], 1⟩
        "a@x.com" "A"
      = Except.error DBError.integrityError :=
  C8_race_surfaces_integrity_error ⟨[], 0⟩
    ⟨[⟨0, "a@x.com", ⟨HashAlgo.argon2, "q"⟩, "A", true, true⟩], 1⟩ "a@x.com" "A" rfl rfl

/-- C9: the default user is created with the fixed plaintext password hashed under the
primary algorithm, and that password is a working login credential: authenticate with
the default email and the fixed password returns that superuser. -/
theorem C9_bypass_password_logs_in (db : DB) (email name : String)
    (hnone : get_user_by_email db email = none) :
    ∃ u db2,
      get_or_create_default_user db email name
        = (u, db2, [CryptoCall.hash "not-used-for-local-user"]) ∧
      u.hashed_password = get_password_hash "not-used-for-local-user" ∧
      u.is_superuser = true ∧
      (authenticate db2 email "not-used-for-local-user").1 = some u := by
  have hcreate : get_or_create_default_user db email name
      = create_user db ⟨email, "not-used-for-local-user", name, true, true⟩ := by
    simp [get_or_create_default_user, hnone]
  refine ⟨(create_user db ⟨email, "not-used-for-local-user", name, true, true⟩).1,
    (create_user db ⟨email, "not-used-for-local-user", name, true, true⟩).2.1,
    hcreate.trans rfl, rfl, rfl, ?_⟩
  have hfind2 :
      get_user_by_email
          (create_user db ⟨email, "not-used-for-local-user", name, true, true⟩).2.1
          email
        = some (create_user db
            ⟨email, "not-used-for-local-user", name, true, true⟩).1 := by
    simp only [create_user, get_user_by_email]
    exact find?_email_append (by simpa [get_user_by_email] using hnone) rfl
  have hv : verify_password "not-used-for-local-user"
      (create_user db ⟨email, "not-used-for-local-user", name, true, true⟩).1.hashed_password
      = (true, none) := rfl
  simp only [authenticate, hfind2, hv]
  rfl

/-- Witness for C9 on the empty state. -/
theorem C9_witness :
    ∃ u db2,
      get_or_create_default_user ⟨[], 0⟩ "local@desktop.app" "Local User"
        = (u, db2, [CryptoCall.hash "not-used-for-local-user"]) ∧
      u.hashed_password = get_password_hash "not-used-for-local-user" ∧
      u.is_superuser = true ∧
      (authenticate db2 "local@desktop.app" "not-used-for-local-user").1 = some u :=
  C9_bypass_password_logs_in ⟨[], 0⟩ "local@desktop.app" "Local User" rfl
